import Mathlib

/-!
Shallow embedding of the token-bridge transfer-completion core
(`src/solana/modules/token_bridge/program/src/api/complete_transfer_payload.rs`):
the two instruction handlers `complete_native_with_payload` and
`complete_wrapped_with_payload`, together with the replay-claim ledger and the
decimal normalization they use.

Addresses (32-byte Solana pubkeys) and byte arrays are modelled as `Nat`;
u64 / u16 / U256 machine integers are `Nat` with explicit `2 ^ 64` bounds at
the points where the source checks or converts them.  Fallible steps return
`Except TokenBridgeError`; a Rust panic (an `unwrap` or an overflow abort)
aborts the Solana transaction, so it is modelled as an error outcome.
-/

namespace Wormhole

/-- Error outcomes of the completion handlers.  The first four constructors are
the `TokenBridgeError` variants the source returns
(`InvalidMint`, `InvalidChain`, `InvalidRecipient`, `WrongAccountOwner`);
`InvalidDerivation` stands for the solitaire `verify_derivation` failure,
`AlreadyClaimed` for the claim ledger's duplicate-claim failure, and the last
three label the arithmetic abort sites (`U256::as_u64` out of range, the
scaling multiplication overflowing u64, and `checked_sub(..).unwrap()` on
underflow). -/
inductive TokenBridgeError where
  | InvalidMint
  | InvalidChain
  | InvalidRecipient
  | WrongAccountOwner
  | InvalidDerivation
  | AlreadyClaimed
  | AmountOverflow
  | ScalingOverflow
  | FeeExceedsAmount
  deriving DecidableEq, Repr

/-- VAA envelope metadata read by the handlers: the emitter and sequence fields
that form the message identity used for replay protection. -/
structure VaaMeta where
  emitter_chain : Nat
  emitter_address : Nat
  sequence : Nat
  deriving DecidableEq, Repr

/-- Fields of `PayloadTransferWithPayload`: the fields of the attested transfer message
the handlers read (src/solana/modules/token_bridge/program/src/messages). -/
structure PayloadTransferWithPayload where
  token_address : Nat
  token_chain : Nat
  amount : Nat
  fee : Nat
  «to» : Nat
  to_chain : Nat
  deriving DecidableEq, Repr

/-- A `PayloadMessage` account: envelope metadata plus decoded payload. -/
structure Vaa where
  meta : VaaMeta
  payload : PayloadTransferWithPayload
  deriving DecidableEq, Repr

/-- The fields of an SPL token account (`spl_token::state::Account`) the
handlers read. -/
structure SplAccount where
  mint : Nat
  owner : Nat
  deriving DecidableEq, Repr

/-- Message identity for replay purposes: (emitter chain, emitter address,
sequence) of the attestation. -/
abbrev ClaimId : Type := Nat × Nat × Nat

/-- The claim identity of a VAA. -/
def claimIdOf (m : VaaMeta) : ClaimId :=
  (m.emitter_chain, m.emitter_address, m.sequence)

/-- The claim-ledger state: the set of already-consumed message identities,
as a list of claim records. -/
abbrev ClaimState : Type := List ClaimId

/-- Modelled from the spec: the claim ledger (`bridge::vaa::ClaimableVAA::claim`,
in the bridge crate, not under src/).  `claim(messageIdentity, payer)` creates a
permanent claim record keyed by message identity, first-writer-wins; a later
write to the same key fails deterministically with `AlreadyClaimed`.  The payer
is recorded for bookkeeping only and has no bearing on claim uniqueness, so the
model ignores it. -/
def claimVaa (st : ClaimState) (_payer : Nat) (id : ClaimId) :
    Except TokenBridgeError ClaimState :=
  if id ∈ st then .error .AlreadyClaimed else .ok (id :: st)

/-- Modelled from the spec: the DerivationVerifier (solitaire `Seeded` /
`Pubkey::find_program_address`, not under src/) is a pure function from the
program namespace, a role tag and the seed fields to an address; roles use
disjoint seed prefixes.  Modelled as an injective `Nat` pairing. -/
def deriveAddress (pid : Nat) (role : Nat) (seeds : List Nat) : Nat :=
  Nat.pair pid (Nat.pair role (seeds.foldr Nat.pair 0))

/-- Derived endpoint (chain-registration) address, seeded by the emitter chain
and emitter address (`EndpointDerivationData`). -/
def deriveEndpoint (pid : Nat) (emitter_chain : Nat) (emitter_address : Nat) : Nat :=
  deriveAddress pid 0 [emitter_chain, emitter_address]

/-- Derived custody-account address, seeded by the mint
(`CustodyAccountDerivationData`). -/
def deriveCustody (pid : Nat) (mint : Nat) : Nat :=
  deriveAddress pid 1 [mint]

/-- Derived wrapped-meta address, seeded by the mint
(`WrappedMetaDerivationData`). -/
def deriveWrappedMeta (pid : Nat) (mint : Nat) : Nat :=
  deriveAddress pid 2 [mint]

/-- The constant CHAIN_ID_SOLANA from the bridge crate: the local chain id, 1
(the native handler also compares `token_chain` against the literal 1). -/
def CHAIN_ID_SOLANA : Nat := 1

/-- Semantics of `U256::as_u64` (uint crate): returns the value if it fits in a u64 and
panics (aborting the transaction) otherwise — never a truncation. -/
def asU64 (x : Nat) : Except TokenBridgeError Nat :=
  if x < 2 ^ 64 then .ok x else .error .AmountOverflow

/-- Lines 139-143: `if accs.mint.decimals > 8 { amount *= 10u64.pow(decimals - 8) }`.
Wormhole caps transfers at 8 decimals; when the local mint has more, the
canonical value is scaled back up; when it has 8 or fewer, it is left
unchanged.  The multiplication is u64; on overflow the program aborts
(overflow is a fatal error, per the spec — the Cargo profile that fixes the
overflow-checks semantics is not under src/). -/
def untruncate (decimals : Nat) (x : Nat) : Except TokenBridgeError Nat :=
  if decimals > 8 then
    if x * 10 ^ (decimals - 8) < 2 ^ 64 then .ok (x * 10 ^ (decimals - 8))
    else .error .ScalingOverflow
  else .ok x

/-- Semantics of `u64::checked_sub(..).unwrap()`: the difference when `b ≤ a`, otherwise a
panic aborting the transaction (no saturation, no wraparound). -/
def checkedSub (a b : Nat) : Except TokenBridgeError Nat :=
  if b ≤ a then .ok (a - b) else .error .FeeExceedsAmount

/-- The kind of an emitted SPL token instruction. -/
inductive MovementKind where
  | transfer
  | mintTo
  deriving DecidableEq, Repr

/-- One emitted token movement: an `spl_token::instruction::transfer` or
`mint_to`, with its source (custody account or mint), destination token
account, authority, and amount. -/
structure Movement where
  kind : MovementKind
  source : Nat
  dest : Nat
  authority : Nat
  amount : Nat
  deriving DecidableEq, Repr

/-- The accounts of the `CompleteNativeWithPayload` instruction (lines 51-63),
by the fields the handler reads: account addresses (`_key`) and deserialized
account data. -/
structure CompleteNativeWithPayload where
  payer : Nat
  vaa : Vaa
  chain_registration_key : Nat
  to_key : Nat
  to_data : SplAccount
  to_owner_key : Nat
  to_fees_key : Nat
  to_fees_data : SplAccount
  custody_key : Nat
  custody_data : SplAccount
  mint_key : Nat
  mint_decimals : Nat
  custody_signer_key : Nat
  deriving DecidableEq, Repr

/-- The validation sequence of `complete_native_with_payload` (lines 90-131),
in source order, returning the first failing check's error, or `none` when all
checks pass. -/
def nativePre (pid : Nat) (a : CompleteNativeWithPayload) : Option TokenBridgeError :=
  -- Verify the chain registration (lines 91-93)
  if a.chain_registration_key ≠
      deriveEndpoint pid a.vaa.meta.emitter_chain a.vaa.meta.emitter_address then
    some .InvalidDerivation
  -- Verify that the custody account is derived correctly (lines 96-98)
  else if a.custody_key ≠ deriveCustody pid a.mint_key then some .InvalidDerivation
  -- Verify mints (lines 101-112)
  else if a.mint_key ≠ a.to_data.mint then some .InvalidMint
  else if a.mint_key ≠ a.to_fees_data.mint then some .InvalidMint
  else if a.mint_key ≠ a.custody_data.mint then some .InvalidMint
  else if a.custody_signer_key ≠ a.custody_data.owner then some .WrongAccountOwner
  -- Verify VAA (lines 115-126)
  else if a.vaa.payload.token_address ≠ a.mint_key then some .InvalidMint
  else if a.vaa.payload.token_chain ≠ 1 then some .InvalidChain
  else if a.vaa.payload.to_chain ≠ CHAIN_ID_SOLANA then some .InvalidChain
  else if a.vaa.payload.«to» ≠ a.to_owner_key then some .InvalidRecipient
  -- VAA-specified recipient must be token account owner (lines 129-131)
  else if a.to_owner_key ≠ a.to_data.owner then some .InvalidRecipient
  else none

/-- Handler `complete_native_with_payload` (lines 85-168): the validation sequence,
then the replay claim (line 134), then amount conversion and scaling
(lines 136-143), then the two emitted transfers out of custody
(lines 146-165): `amount - fee` to the recipient token account and `fee` to
the fee token account, both signed by the custody signer. -/
def complete_native_with_payload (pid : Nat) (a : CompleteNativeWithPayload)
    (st : ClaimState) : Except TokenBridgeError (ClaimState × List Movement) :=
  match nativePre pid a with
  | some e => .error e
  | none =>
    -- Prevent vaa double signing (line 134)
    match claimVaa st a.payer (claimIdOf a.vaa.meta) with
    | .error e => .error e
    | .ok st' =>
      match asU64 a.vaa.payload.amount with
      | .error e => .error e
      | .ok amount0 =>
        match asU64 a.vaa.payload.fee with
        | .error e => .error e
        | .ok fee0 =>
          match untruncate a.mint_decimals amount0 with
          | .error e => .error e
          | .ok amount =>
            match untruncate a.mint_decimals fee0 with
            | .error e => .error e
            | .ok fee =>
              match checkedSub amount fee with
              | .error e => .error e
              | .ok net =>
                .ok (st',
                  [⟨.transfer, a.custody_key, a.to_key, a.custody_signer_key, net⟩,
                   ⟨.transfer, a.custody_key, a.to_fees_key, a.custody_signer_key, fee⟩])

/-- The accounts of the `CompleteWrappedWithPayload` instruction
(lines 170-182), by the fields the handler reads.  `mint_decimals` is the
wrapped SPL mint's decimals field; the handler never reads it. -/
structure CompleteWrappedWithPayload where
  payer : Nat
  vaa : Vaa
  chain_registration_key : Nat
  to_key : Nat
  to_data : SplAccount
  to_owner_key : Nat
  to_fees_key : Nat
  to_fees_data : SplAccount
  mint_key : Nat
  mint_decimals : Nat
  wrapped_meta_key : Nat
  wrapped_meta_token_address : Nat
  wrapped_meta_chain : Nat
  mint_authority_key : Nat
  deriving DecidableEq, Repr

/-- The validation sequence of `complete_wrapped_with_payload`
(lines 210-247), in source order. -/
def wrappedPre (pid : Nat) (a : CompleteWrappedWithPayload) : Option TokenBridgeError :=
  -- Verify the chain registration (lines 211-213)
  if a.chain_registration_key ≠
      deriveEndpoint pid a.vaa.meta.emitter_chain a.vaa.meta.emitter_address then
    some .InvalidDerivation
  -- Verify mint: wrapped meta derivation and origin fields (lines 216-226)
  else if a.wrapped_meta_key ≠ deriveWrappedMeta pid a.mint_key then some .InvalidDerivation
  else if a.wrapped_meta_token_address ≠ a.vaa.payload.token_address ∨
      a.wrapped_meta_chain ≠ a.vaa.payload.token_chain then some .InvalidMint
  -- Verify mints (lines 229-234)
  else if a.mint_key ≠ a.to_data.mint then some .InvalidMint
  else if a.mint_key ≠ a.to_fees_data.mint then some .InvalidMint
  -- Verify VAA (lines 237-242)
  else if a.vaa.payload.to_chain ≠ CHAIN_ID_SOLANA then some .InvalidChain
  else if a.vaa.payload.«to» ≠ a.to_owner_key then some .InvalidRecipient
  -- VAA-specified recipient must be token account owner (lines 245-247)
  else if a.to_owner_key ≠ a.to_data.owner then some .InvalidRecipient
  else none

/-- Handler `complete_wrapped_with_payload` (lines 205-278): the validation sequence,
the replay claim (line 249), then two emitted `mint_to`s (lines 252-275):
`vaa.amount.as_u64() - vaa.fee.as_u64()` (checked) to the recipient token
account and `vaa.fee.as_u64()` to the fee token account, authorized by the
mint authority.  No decimal scaling is applied in this path. -/
def complete_wrapped_with_payload (pid : Nat) (a : CompleteWrappedWithPayload)
    (st : ClaimState) : Except TokenBridgeError (ClaimState × List Movement) :=
  match wrappedPre pid a with
  | some e => .error e
  | none =>
    match claimVaa st a.payer (claimIdOf a.vaa.meta) with
    | .error e => .error e
    | .ok st' =>
      match asU64 a.vaa.payload.amount with
      | .error e => .error e
      | .ok amount0 =>
        match asU64 a.vaa.payload.fee with
        | .error e => .error e
        | .ok fee0 =>
          match checkedSub amount0 fee0 with
          | .error e => .error e
          | .ok net =>
            .ok (st',
              [⟨.mintTo, a.mint_key, a.to_key, a.mint_authority_key, net⟩,
               ⟨.mintTo, a.mint_key, a.to_fees_key, a.mint_authority_key, fee0⟩])

/-- Modelled from the spec: the Solana runtime (not under src/) executes the
instruction as one atomic unit — an abort (returned error or panic) rolls back
every account write, so a failing run commits the original claim state and no
token movement. -/
def runComplete (st : ClaimState)
    (r : Except TokenBridgeError (ClaimState × List Movement)) :
    ClaimState × List Movement :=
  match r with
  | .ok p => p
  | .error _ => (st, [])

/-- A concrete, fully valid native-completion account set: program id 7,
mint 5 with 6 decimals, VAA transferring 1_000_000_000 canonical units with
fee 0 to recipient 6, emitted by endpoint (chain 2, address 3), sequence 4. -/
def exampleNative : CompleteNativeWithPayload :=
  { payer := 21
  , vaa := { meta := { emitter_chain := 2, emitter_address := 3, sequence := 4 }
           , payload := { token_address := 5, token_chain := 1, amount := 1000000000,
                          fee := 0, «to» := 6, to_chain := 1 } }
  , chain_registration_key := deriveEndpoint 7 2 3
  , to_key := 10
  , to_data := { mint := 5, owner := 6 }
  , to_owner_key := 6
  , to_fees_key := 11
  , to_fees_data := { mint := 5, owner := 12 }
  , custody_key := deriveCustody 7 5
  , custody_data := { mint := 5, owner := 13 }
  , mint_key := 5
  , mint_decimals := 6
  , custody_signer_key := 13 }

/-- A concrete, fully valid wrapped-completion account set: program id 7,
wrapped mint 40 (9 decimals) for origin asset (chain 2, address 50), VAA
transferring 1000 canonical units with fee 100 to recipient 6. -/
def exampleWrapped : CompleteWrappedWithPayload :=
  { payer := 22
  , vaa := { meta := { emitter_chain := 2, emitter_address := 3, sequence := 9 }
           , payload := { token_address := 50, token_chain := 2, amount := 1000,
                          fee := 100, «to» := 6, to_chain := 1 } }
  , chain_registration_key := deriveEndpoint 7 2 3
  , to_key := 10
  , to_data := { mint := 40, owner := 6 }
  , to_owner_key := 6
  , to_fees_key := 11
  , to_fees_data := { mint := 40, owner := 12 }
  , mint_key := 40
  , mint_decimals := 9
  , wrapped_meta_key := deriveWrappedMeta 7 40
  , wrapped_meta_token_address := 50
  , wrapped_meta_chain := 2
  , mint_authority_key := 33 }

/-- Variant of `exampleNative` with the message's destination chain set to 99 instead of
the local chain id. -/
def exampleNativeWrongChain : CompleteNativeWithPayload :=
  { exampleNative with
    vaa := { exampleNative.vaa with
             payload := { exampleNative.vaa.payload with to_chain := 99 } } }

/-- Variant of `exampleWrapped` with the message's destination chain set to 99 instead of
the local chain id. -/
def exampleWrappedWrongChain : CompleteWrappedWithPayload :=
  { exampleWrapped with
    vaa := { exampleWrapped.vaa with
             payload := { exampleWrapped.vaa.payload with to_chain := 99 } } }

/-- Variant of `exampleNative` with the message's origin chain set to 2: a foreign-chain
asset presented to the native-release path. -/
def exampleNativeWrongTokenChain : CompleteNativeWithPayload :=
  { exampleNative with
    vaa := { exampleNative.vaa with
             payload := { exampleNative.vaa.payload with token_chain := 2 } } }

/-- Variant of `exampleNative` with the message's `to` field (77) differing from the
presented recipient (6). -/
def exampleNativeWrongRecipient : CompleteNativeWithPayload :=
  { exampleNative with
    vaa := { exampleNative.vaa with
             payload := { exampleNative.vaa.payload with «to» := 77 } } }

/-- Variant of `exampleNative` where the destination token account is owned by 78, not by
the presented recipient 6. -/
def exampleNativeWrongOwner : CompleteNativeWithPayload :=
  { exampleNative with to_data := { exampleNative.to_data with owner := 78 } }

/-- Variant of `exampleWrapped` with the message's `to` field (77) differing from the
presented recipient (6). -/
def exampleWrappedWrongRecipient : CompleteWrappedWithPayload :=
  { exampleWrapped with
    vaa := { exampleWrapped.vaa with
             payload := { exampleWrapped.vaa.payload with «to» := 77 } } }

/-- Variant of `exampleNative` with a 19-decimal mint and amount 2^60: the scaling
multiplication 2^60 * 10^11 exceeds u64. -/
def exampleNativeOverflowAmount : CompleteNativeWithPayload :=
  { exampleNative with
    mint_decimals := 19
  , vaa := { exampleNative.vaa with
             payload := { exampleNative.vaa.payload with amount := 2 ^ 60, fee := 0 } } }

/-- Variant of `exampleNative` with a 19-decimal mint, amount 0 and fee 2^60: the
amount scaling fits but the fee scaling 2^60 * 10^11 exceeds u64. -/
def exampleNativeOverflowFee : CompleteNativeWithPayload :=
  { exampleNative with
    mint_decimals := 19
  , vaa := { exampleNative.vaa with
             payload := { exampleNative.vaa.payload with amount := 0, fee := 2 ^ 60 } } }

/-- Variant of `exampleNative` with a 9-decimal mint, amount 1000 and fee 100:
a successful run that scales both by 10. -/
def exampleNativeNine : CompleteNativeWithPayload :=
  { exampleNative with
    mint_decimals := 9
  , vaa := { exampleNative.vaa with
             payload := { exampleNative.vaa.payload with amount := 1000, fee := 100 } } }

/-- Variant of `exampleNative` with fee 7 exceeding amount 5. -/
def exampleNativeFeeTooBig : CompleteNativeWithPayload :=
  { exampleNative with
    vaa := { exampleNative.vaa with
             payload := { exampleNative.vaa.payload with amount := 5, fee := 7 } } }

/-- Variant of `exampleWrapped` with fee 7 exceeding amount 5. -/
def exampleWrappedFeeTooBig : CompleteWrappedWithPayload :=
  { exampleWrapped with
    vaa := { exampleWrapped.vaa with
             payload := { exampleWrapped.vaa.payload with amount := 5, fee := 7 } } }

theorem claimVaa_ok_iff {st st2 : ClaimState} {p : Nat} {id : ClaimId} :
    claimVaa st p id = .ok st2 ↔ id ∉ st ∧ st2 = id :: st := by
  unfold claimVaa; split <;> simp_all; exact eq_comm

theorem asU64_ok_iff {x y : Nat} : asU64 x = .ok y ↔ x < 2 ^ 64 ∧ y = x := by
  unfold asU64; split <;> simp_all; exact eq_comm

theorem checkedSub_ok_iff {a b c : Nat} : checkedSub a b = .ok c ↔ b ≤ a ∧ c = a - b := by
  unfold checkedSub; split <;> simp_all; exact eq_comm

theorem native_ok_elim {pid : Nat} {a : CompleteNativeWithPayload} {st st' : ClaimState}
    {mv : List Movement}
    (h : complete_native_with_payload pid a st = .ok (st', mv)) :
    nativePre pid a = none ∧
    claimIdOf a.vaa.meta ∉ st ∧
    st' = claimIdOf a.vaa.meta :: st ∧
    a.vaa.payload.amount < 2 ^ 64 ∧ a.vaa.payload.fee < 2 ^ 64 ∧
    ∃ aL fL, untruncate a.mint_decimals a.vaa.payload.amount = .ok aL ∧
      untruncate a.mint_decimals a.vaa.payload.fee = .ok fL ∧ fL ≤ aL ∧
      mv = [⟨.transfer, a.custody_key, a.to_key, a.custody_signer_key, aL - fL⟩,
            ⟨.transfer, a.custody_key, a.to_fees_key, a.custody_signer_key, fL⟩] := by
  unfold complete_native_with_payload at h
  repeat' split at h
  all_goals simp_all [claimVaa_ok_iff, asU64_ok_iff, checkedSub_ok_iff]

theorem wrapped_ok_elim {pid : Nat} {a : CompleteWrappedWithPayload} {st st' : ClaimState}
    {mv : List Movement}
    (h : complete_wrapped_with_payload pid a st = .ok (st', mv)) :
    wrappedPre pid a = none ∧
    claimIdOf a.vaa.meta ∉ st ∧
    st' = claimIdOf a.vaa.meta :: st ∧
    a.vaa.payload.amount < 2 ^ 64 ∧ a.vaa.payload.fee < 2 ^ 64 ∧
    a.vaa.payload.fee ≤ a.vaa.payload.amount ∧
    mv = [⟨.mintTo, a.mint_key, a.to_key, a.mint_authority_key,
             a.vaa.payload.amount - a.vaa.payload.fee⟩,
          ⟨.mintTo, a.mint_key, a.to_fees_key, a.mint_authority_key, a.vaa.payload.fee⟩] := by
  unfold complete_wrapped_with_payload at h
  repeat' split at h
  all_goals simp_all [claimVaa_ok_iff, asU64_ok_iff, checkedSub_ok_iff]

theorem native_error_of_pre {pid : Nat} {a : CompleteNativeWithPayload} (st : ClaimState)
    {e : TokenBridgeError} (hp : nativePre pid a = some e) :
    complete_native_with_payload pid a st = .error e := by
  unfold complete_native_with_payload
  simp only [hp]

theorem wrapped_error_of_pre {pid : Nat} {a : CompleteWrappedWithPayload} (st : ClaimState)
    {e : TokenBridgeError} (hp : wrappedPre pid a = some e) :
    complete_wrapped_with_payload pid a st = .error e := by
  unfold complete_wrapped_with_payload
  simp only [hp]

theorem native_claimed {pid : Nat} {a : CompleteNativeWithPayload} {st : ClaimState}
    (hp : nativePre pid a = none) (hm : claimIdOf a.vaa.meta ∈ st) :
    complete_native_with_payload pid a st = .error .AlreadyClaimed := by
  unfold complete_native_with_payload claimVaa
  simp only [hp, if_pos hm]

theorem wrapped_claimed {pid : Nat} {a : CompleteWrappedWithPayload} {st : ClaimState}
    (hp : wrappedPre pid a = none) (hm : claimIdOf a.vaa.meta ∈ st) :
    complete_wrapped_with_payload pid a st = .error .AlreadyClaimed := by
  unfold complete_wrapped_with_payload claimVaa
  simp only [hp, if_pos hm]

theorem untruncate_of_le {d x : Nat} (h : d ≤ 8) : untruncate d x = .ok x := by
  unfold untruncate; rw [if_neg (by omega)]

theorem untruncate_err_of_overflow {d x : Nat} (hd : 8 < d)
    (hov : 2 ^ 64 ≤ x * 10 ^ (d - 8)) : untruncate d x = .error .ScalingOverflow := by
  unfold untruncate; rw [if_pos hd, if_neg (by omega)]

theorem untruncate_ok_of_lt {d x : Nat} (hd : 8 < d) (hlt : x * 10 ^ (d - 8) < 2 ^ 64) :
    untruncate d x = .ok (x * 10 ^ (d - 8)) := by
  unfold untruncate; rw [if_pos hd, if_pos hlt]

theorem untruncate_scale {d x y : Nat} (h : untruncate d x = .ok y) :
    y = x * (if 8 < d then 10 ^ (d - 8) else 1) := by
  unfold untruncate at h
  split at h
  · split at h <;> simp_all
  · simp_all

theorem untruncate_gt_elim {d x y : Nat} (hd : 8 < d) (h : untruncate d x = .ok y) :
    y = x * 10 ^ (d - 8) ∧ x * 10 ^ (d - 8) < 2 ^ 64 := by
  unfold untruncate at h
  rw [if_pos hd] at h
  split at h <;> simp_all

set_option maxHeartbeats 2000000 in
theorem nativePre_none_iff {pid : Nat} {a : CompleteNativeWithPayload} :
    nativePre pid a = none ↔
      a.chain_registration_key =
        deriveEndpoint pid a.vaa.meta.emitter_chain a.vaa.meta.emitter_address ∧
      a.custody_key = deriveCustody pid a.mint_key ∧
      a.mint_key = a.to_data.mint ∧
      a.mint_key = a.to_fees_data.mint ∧
      a.mint_key = a.custody_data.mint ∧
      a.custody_signer_key = a.custody_data.owner ∧
      a.vaa.payload.token_address = a.mint_key ∧
      a.vaa.payload.token_chain = 1 ∧
      a.vaa.payload.to_chain = CHAIN_ID_SOLANA ∧
      a.vaa.payload.«to» = a.to_owner_key ∧
      a.to_owner_key = a.to_data.owner := by
  constructor
  · intro h
    unfold nativePre at h
    split_ifs at h with h1 h2 h3 h4 h5 h6 h7 h8 h9 h10 h11
    exact ⟨not_not.mp h1, not_not.mp h2, not_not.mp h3, not_not.mp h4, not_not.mp h5,
      not_not.mp h6, not_not.mp h7, not_not.mp h8, not_not.mp h9, not_not.mp h10,
      not_not.mp h11⟩
  · rintro ⟨h1, h2, h3, h4, h5, h6, h7, h8, h9, h10, h11⟩
    unfold nativePre
    rw [if_neg (not_not_intro h1), if_neg (not_not_intro h2), if_neg (not_not_intro h3),
      if_neg (not_not_intro h4), if_neg (not_not_intro h5), if_neg (not_not_intro h6),
      if_neg (not_not_intro h7), if_neg (not_not_intro h8), if_neg (not_not_intro h9),
      if_neg (not_not_intro h10), if_neg (not_not_intro h11)]

set_option maxHeartbeats 2000000 in
theorem wrappedPre_none_iff {pid : Nat} {a : CompleteWrappedWithPayload} :
    wrappedPre pid a = none ↔
      a.chain_registration_key =
        deriveEndpoint pid a.vaa.meta.emitter_chain a.vaa.meta.emitter_address ∧
      a.wrapped_meta_key = deriveWrappedMeta pid a.mint_key ∧
      a.wrapped_meta_token_address = a.vaa.payload.token_address ∧
      a.wrapped_meta_chain = a.vaa.payload.token_chain ∧
      a.mint_key = a.to_data.mint ∧
      a.mint_key = a.to_fees_data.mint ∧
      a.vaa.payload.to_chain = CHAIN_ID_SOLANA ∧
      a.vaa.payload.«to» = a.to_owner_key ∧
      a.to_owner_key = a.to_data.owner := by
  constructor
  · intro h
    unfold wrappedPre at h
    split_ifs at h with h1 h2 h3 h4 h5 h6 h7 h8
    rw [not_or, not_not, not_not] at h3
    exact ⟨not_not.mp h1, not_not.mp h2, h3.1, h3.2, not_not.mp h4, not_not.mp h5,
      not_not.mp h6, not_not.mp h7, not_not.mp h8⟩
  · rintro ⟨h1, h2, h3, h3b, h4, h5, h6, h7, h8⟩
    unfold wrappedPre
    rw [if_neg (not_not_intro h1), if_neg (not_not_intro h2),
      if_neg (by rw [not_or, not_not, not_not]; exact ⟨h3, h3b⟩),
      if_neg (not_not_intro h4), if_neg (not_not_intro h5), if_neg (not_not_intro h6),
      if_neg (not_not_intro h7), if_neg (not_not_intro h8)]

theorem native_err_of_untrunc_amount {pid : Nat} {a : CompleteNativeWithPayload}
    {st : ClaimState} {e : TokenBridgeError}
    (hp : nativePre pid a = none) (hm : claimIdOf a.vaa.meta ∉ st)
    (ha : a.vaa.payload.amount < 2 ^ 64) (hf : a.vaa.payload.fee < 2 ^ 64)
    (hu : untruncate a.mint_decimals a.vaa.payload.amount = .error e) :
    complete_native_with_payload pid a st = .error e := by
  unfold complete_native_with_payload claimVaa asU64
  simp only [hp, if_neg hm, if_pos ha, if_pos hf, hu]

theorem native_err_of_untrunc_fee {pid : Nat} {a : CompleteNativeWithPayload}
    {st : ClaimState} {aL : Nat} {e : TokenBridgeError}
    (hp : nativePre pid a = none) (hm : claimIdOf a.vaa.meta ∉ st)
    (ha : a.vaa.payload.amount < 2 ^ 64) (hf : a.vaa.payload.fee < 2 ^ 64)
    (hu : untruncate a.mint_decimals a.vaa.payload.amount = .ok aL)
    (hv : untruncate a.mint_decimals a.vaa.payload.fee = .error e) :
    complete_native_with_payload pid a st = .error e := by
  unfold complete_native_with_payload claimVaa asU64
  simp only [hp, if_neg hm, if_pos ha, if_pos hf, hu, hv]

theorem native_err_of_sub {pid : Nat} {a : CompleteNativeWithPayload}
    {st : ClaimState} {aL fL : Nat}
    (hp : nativePre pid a = none) (hm : claimIdOf a.vaa.meta ∉ st)
    (ha : a.vaa.payload.amount < 2 ^ 64) (hf : a.vaa.payload.fee < 2 ^ 64)
    (hu : untruncate a.mint_decimals a.vaa.payload.amount = .ok aL)
    (hv : untruncate a.mint_decimals a.vaa.payload.fee = .ok fL)
    (hs : aL < fL) :
    complete_native_with_payload pid a st = .error .FeeExceedsAmount := by
  unfold complete_native_with_payload claimVaa asU64 checkedSub
  simp only [hp, if_neg hm, if_pos ha, if_pos hf, hu, hv, if_neg (by omega : ¬ fL ≤ aL)]

theorem wrapped_err_of_sub {pid : Nat} {a : CompleteWrappedWithPayload} {st : ClaimState}
    (hp : wrappedPre pid a = none) (hm : claimIdOf a.vaa.meta ∉ st)
    (ha : a.vaa.payload.amount < 2 ^ 64) (hf : a.vaa.payload.fee < 2 ^ 64)
    (hs : a.vaa.payload.amount < a.vaa.payload.fee) :
    complete_wrapped_with_payload pid a st = .error .FeeExceedsAmount := by
  unfold complete_wrapped_with_payload claimVaa asU64 checkedSub
  simp only [hp, if_neg hm, if_pos ha, if_pos hf,
    if_neg (by omega : ¬ a.vaa.payload.fee ≤ a.vaa.payload.amount)]

/-- C1: replaying a message is impossible and payer-independent.  The payer
field has no bearing on any handler's outcome, and whenever one completion of
a message identity has succeeded, any second completion of the same identity —
through either handler, by any payer, with any otherwise-valid account set —
fails with `AlreadyClaimed`. -/
theorem c1_exactly_once :
    (∀ pid (a : CompleteNativeWithPayload) st p',
      complete_native_with_payload pid { a with payer := p' } st =
        complete_native_with_payload pid a st) ∧
    (∀ pid (a : CompleteWrappedWithPayload) st p',
      complete_wrapped_with_payload pid { a with payer := p' } st =
        complete_wrapped_with_payload pid a st) ∧
    (∀ pid (a b : CompleteNativeWithPayload) st ra rb,
      claimIdOf b.vaa.meta = claimIdOf a.vaa.meta →
      complete_native_with_payload pid a st = .ok ra →
      complete_native_with_payload pid b st = .ok rb →
      complete_native_with_payload pid b ra.1 = .error .AlreadyClaimed) ∧
    (∀ pid (a : CompleteNativeWithPayload) (b : CompleteWrappedWithPayload) st ra rb,
      claimIdOf b.vaa.meta = claimIdOf a.vaa.meta →
      complete_native_with_payload pid a st = .ok ra →
      complete_wrapped_with_payload pid b st = .ok rb →
      complete_wrapped_with_payload pid b ra.1 = .error .AlreadyClaimed) ∧
    (∀ pid (a : CompleteWrappedWithPayload) (b : CompleteNativeWithPayload) st ra rb,
      claimIdOf b.vaa.meta = claimIdOf a.vaa.meta →
      complete_wrapped_with_payload pid a st = .ok ra →
      complete_native_with_payload pid b st = .ok rb →
      complete_native_with_payload pid b ra.1 = .error .AlreadyClaimed) ∧
    (∀ pid (a b : CompleteWrappedWithPayload) st ra rb,
      claimIdOf b.vaa.meta = claimIdOf a.vaa.meta →
      complete_wrapped_with_payload pid a st = .ok ra →
      complete_wrapped_with_payload pid b st = .ok rb →
      complete_wrapped_with_payload pid b ra.1 = .error .AlreadyClaimed) := by
  refine ⟨fun pid a st p' => rfl, fun pid a st p' => rfl, ?_, ?_, ?_, ?_⟩
  · intro pid a b st ra rb hid hA hB
    obtain ⟨sa, ma⟩ := ra
    obtain ⟨sb, mb⟩ := rb
    apply native_claimed (native_ok_elim hB).1
    rw [show (sa, ma).1 = sa from rfl, (native_ok_elim hA).2.2.1, hid]
    exact List.mem_cons_self _ _
  · intro pid a b st ra rb hid hA hB
    obtain ⟨sa, ma⟩ := ra
    obtain ⟨sb, mb⟩ := rb
    apply wrapped_claimed (wrapped_ok_elim hB).1
    rw [show (sa, ma).1 = sa from rfl, (native_ok_elim hA).2.2.1, hid]
    exact List.mem_cons_self _ _
  · intro pid a b st ra rb hid hA hB
    obtain ⟨sa, ma⟩ := ra
    obtain ⟨sb, mb⟩ := rb
    apply native_claimed (native_ok_elim hB).1
    rw [show (sa, ma).1 = sa from rfl, (wrapped_ok_elim hA).2.2.1, hid]
    exact List.mem_cons_self _ _
  · intro pid a b st ra rb hid hA hB
    obtain ⟨sa, ma⟩ := ra
    obtain ⟨sb, mb⟩ := rb
    apply wrapped_claimed (wrapped_ok_elim hB).1
    rw [show (sa, ma).1 = sa from rfl, (wrapped_ok_elim hA).2.2.1, hid]
    exact List.mem_cons_self _ _

/-- C1 witness: changing the payer to 99 leaves the concrete native run's
outcome untouched, and re-running the concrete valid native completion after
its own successful run fails with `AlreadyClaimed`. -/
theorem c1_exactly_once_witness :
    complete_native_with_payload 7 { exampleNative with payer := 99 } [] =
      complete_native_with_payload 7 exampleNative [] ∧
    complete_native_with_payload 7 exampleNative [(2, 3, 4)] = .error .AlreadyClaimed :=
  ⟨c1_exactly_once.1 7 exampleNative [] 99,
   c1_exactly_once.2.2.1 7 exampleNative exampleNative []
     ([(2, 3, 4)],
      [⟨.transfer, deriveCustody 7 5, 10, 13, 1000000000⟩,
       ⟨.transfer, deriveCustody 7 5, 11, 13, 0⟩])
     ([(2, 3, 4)],
      [⟨.transfer, deriveCustody 7 5, 10, 13, 1000000000⟩,
       ⟨.transfer, deriveCustody 7 5, 11, 13, 0⟩])
     rfl (by rfl) (by rfl)⟩

/-- C4: in the native path with a mint of more than 8 decimals, a scaling
multiplication (`amount * 10^(decimals-8)` or `fee * 10^(decimals-8)`) that
exceeds u64 aborts the run with `ScalingOverflow`; and any successful run
carries the exact (non-wrapped) products, both below 2^64. -/
theorem c4_scaling_overflow_is_fatal :
    (∀ pid (a : CompleteNativeWithPayload) st,
      nativePre pid a = none →
      claimIdOf a.vaa.meta ∉ st →
      a.vaa.payload.amount < 2 ^ 64 →
      a.vaa.payload.fee < 2 ^ 64 →
      8 < a.mint_decimals →
      2 ^ 64 ≤ a.vaa.payload.amount * 10 ^ (a.mint_decimals - 8) →
      complete_native_with_payload pid a st = .error .ScalingOverflow) ∧
    (∀ pid (a : CompleteNativeWithPayload) st,
      nativePre pid a = none →
      claimIdOf a.vaa.meta ∉ st →
      a.vaa.payload.amount < 2 ^ 64 →
      a.vaa.payload.fee < 2 ^ 64 →
      8 < a.mint_decimals →
      a.vaa.payload.amount * 10 ^ (a.mint_decimals - 8) < 2 ^ 64 →
      2 ^ 64 ≤ a.vaa.payload.fee * 10 ^ (a.mint_decimals - 8) →
      complete_native_with_payload pid a st = .error .ScalingOverflow) ∧
    (∀ pid (a : CompleteNativeWithPayload) st st' mv,
      8 < a.mint_decimals →
      complete_native_with_payload pid a st = .ok (st', mv) →
      mv.map Movement.amount =
        [a.vaa.payload.amount * 10 ^ (a.mint_decimals - 8) -
           a.vaa.payload.fee * 10 ^ (a.mint_decimals - 8),
         a.vaa.payload.fee * 10 ^ (a.mint_decimals - 8)] ∧
      a.vaa.payload.amount * 10 ^ (a.mint_decimals - 8) < 2 ^ 64 ∧
      a.vaa.payload.fee * 10 ^ (a.mint_decimals - 8) < 2 ^ 64) := by
  refine ⟨?_, ?_, ?_⟩
  · intro pid a st hp hm ha hf hd hov
    exact native_err_of_untrunc_amount hp hm ha hf (untruncate_err_of_overflow hd hov)
  · intro pid a st hp hm ha hf hd hlt hov
    exact native_err_of_untrunc_fee hp hm ha hf (untruncate_ok_of_lt hd hlt)
      (untruncate_err_of_overflow hd hov)
  · intro pid a st st' mv hd h
    obtain ⟨-, -, -, -, -, aL, fL, hu, hv, -, hmv⟩ := native_ok_elim h
    obtain ⟨haL, haB⟩ := untruncate_gt_elim hd hu
    obtain ⟨hfL, hfB⟩ := untruncate_gt_elim hd hv
    subst haL hfL
    exact ⟨by simp [hmv], haB, hfB⟩

/-- C4 witness: with 19-decimal mints, amount 2^60 (or fee 2^60) aborts with
`ScalingOverflow`, while the successful 9-decimal run moves the exact products
9000 and 1000. -/
theorem c4_scaling_overflow_is_fatal_witness :
    complete_native_with_payload 7 exampleNativeOverflowAmount [] =
      .error .ScalingOverflow ∧
    complete_native_with_payload 7 exampleNativeOverflowFee [] =
      .error .ScalingOverflow ∧
    ([⟨.transfer, deriveCustody 7 5, 10, 13, 9000⟩,
      ⟨.transfer, deriveCustody 7 5, 11, 13, (1000 : Nat)⟩] : List Movement).map
        Movement.amount =
      [exampleNativeNine.vaa.payload.amount * 10 ^ (exampleNativeNine.mint_decimals - 8) -
         exampleNativeNine.vaa.payload.fee * 10 ^ (exampleNativeNine.mint_decimals - 8),
       exampleNativeNine.vaa.payload.fee * 10 ^ (exampleNativeNine.mint_decimals - 8)] :=
  ⟨c4_scaling_overflow_is_fatal.1 7 exampleNativeOverflowAmount [] (by rfl) (by decide)
     (by decide) (by decide) (by decide) (by decide),
   c4_scaling_overflow_is_fatal.2.1 7 exampleNativeOverflowFee [] (by rfl) (by decide)
     (by decide) (by decide) (by decide) (by decide) (by decide),
   (c4_scaling_overflow_is_fatal.2.2 7 exampleNativeNine [] [(2, 3, 4)]
     [⟨.transfer, deriveCustody 7 5, 10, 13, 9000⟩,
      ⟨.transfer, deriveCustody 7 5, 11, 13, 1000⟩] (by decide) (by rfl)).1⟩

/-- C5: in both paths the fee is normalized with exactly the same scale factor
as the amount, the net credited value is `amount_local - fee_local`, and the
subtraction is checked: when `fee_local > amount_local` the run aborts with
`FeeExceedsAmount` instead of saturating. -/
theorem c5_fee_same_scale_checked_net :
    (∀ pid (a : CompleteNativeWithPayload) st st' mv,
      complete_native_with_payload pid a st = .ok (st', mv) →
      ∃ s, s = (if 8 < a.mint_decimals then 10 ^ (a.mint_decimals - 8) else 1) ∧
        a.vaa.payload.fee * s ≤ a.vaa.payload.amount * s ∧
        mv.map Movement.amount =
          [a.vaa.payload.amount * s - a.vaa.payload.fee * s, a.vaa.payload.fee * s]) ∧
    (∀ pid (a : CompleteNativeWithPayload) st aL fL,
      nativePre pid a = none →
      claimIdOf a.vaa.meta ∉ st →
      a.vaa.payload.amount < 2 ^ 64 →
      a.vaa.payload.fee < 2 ^ 64 →
      untruncate a.mint_decimals a.vaa.payload.amount = .ok aL →
      untruncate a.mint_decimals a.vaa.payload.fee = .ok fL →
      aL < fL →
      complete_native_with_payload pid a st = .error .FeeExceedsAmount) ∧
    (∀ pid (a : CompleteWrappedWithPayload) st st' mv,
      complete_wrapped_with_payload pid a st = .ok (st', mv) →
      a.vaa.payload.fee ≤ a.vaa.payload.amount ∧
      mv.map Movement.amount =
        [a.vaa.payload.amount - a.vaa.payload.fee, a.vaa.payload.fee]) ∧
    (∀ pid (a : CompleteWrappedWithPayload) st,
      wrappedPre pid a = none →
      claimIdOf a.vaa.meta ∉ st →
      a.vaa.payload.amount < 2 ^ 64 →
      a.vaa.payload.fee < 2 ^ 64 →
      a.vaa.payload.amount < a.vaa.payload.fee →
      complete_wrapped_with_payload pid a st = .error .FeeExceedsAmount) := by
  refine ⟨?_, ?_, ?_, ?_⟩
  · intro pid a st st' mv h
    obtain ⟨-, -, -, -, -, aL, fL, hu, hv, hle, hmv⟩ := native_ok_elim h
    refine ⟨_, rfl, ?_, ?_⟩
    · rw [← untruncate_scale hu, ← untruncate_scale hv]; exact hle
    · rw [← untruncate_scale hu, ← untruncate_scale hv]; simp [hmv]
  · intro pid a st aL fL hp hm ha hf hu hv hs
    exact native_err_of_sub hp hm ha hf hu hv hs
  · intro pid a st st' mv h
    obtain ⟨-, -, -, -, -, hle, hmv⟩ := wrapped_ok_elim h
    exact ⟨hle, by simp [hmv]⟩
  · intro pid a st hp hm ha hf hs
    exact wrapped_err_of_sub hp hm ha hf hs

/-- C5 witness: the concrete native run with fee 7 > amount 5 aborts with
`FeeExceedsAmount`, as does the wrapped run with fee 7 > amount 5; the
concrete valid native run satisfies the same-scale-factor decomposition. -/
theorem c5_fee_same_scale_checked_net_witness :
    complete_native_with_payload 7 exampleNativeFeeTooBig [] = .error .FeeExceedsAmount ∧
    complete_wrapped_with_payload 7 exampleWrappedFeeTooBig [] = .error .FeeExceedsAmount ∧
    (∃ s, s = (if 8 < exampleNative.mint_decimals
                then 10 ^ (exampleNative.mint_decimals - 8) else 1) ∧
      exampleNative.vaa.payload.fee * s ≤ exampleNative.vaa.payload.amount * s ∧
      ([⟨.transfer, deriveCustody 7 5, 10, 13, 1000000000⟩,
        ⟨.transfer, deriveCustody 7 5, 11, 13, (0 : Nat)⟩] : List Movement).map
          Movement.amount =
        [exampleNative.vaa.payload.amount * s - exampleNative.vaa.payload.fee * s,
         exampleNative.vaa.payload.fee * s]) :=
  ⟨c5_fee_same_scale_checked_net.2.1 7 exampleNativeFeeTooBig [] 5 7 (by rfl) (by decide)
     (by decide) (by decide) (by rfl) (by rfl) (by decide),
   c5_fee_same_scale_checked_net.2.2.2 7 exampleWrappedFeeTooBig [] (by rfl) (by decide)
     (by decide) (by decide) (by decide),
   c5_fee_same_scale_checked_net.1 7 exampleNative [] [(2, 3, 4)]
     [⟨.transfer, deriveCustody 7 5, 10, 13, 1000000000⟩,
      ⟨.transfer, deriveCustody 7 5, 11, 13, 0⟩] (by rfl)⟩

/-- C2: in both completion paths, whenever the handler succeeds, the value
credited to the recipient (net) plus the value credited to the fee collector
(the locally-normalized fee) equals exactly the locally-normalized amount:
net + fee_local = amount_local, so no value is created or destroyed. -/
theorem c2_amount_conservation :
    (∀ pid (a : CompleteNativeWithPayload) st st' mv,
      complete_native_with_payload pid a st = .ok (st', mv) →
      ∃ aL fL, untruncate a.mint_decimals a.vaa.payload.amount = .ok aL ∧
        untruncate a.mint_decimals a.vaa.payload.fee = .ok fL ∧
        mv.map Movement.amount = [aL - fL, fL] ∧ (aL - fL) + fL = aL) ∧
    (∀ pid (a : CompleteWrappedWithPayload) st st' mv,
      complete_wrapped_with_payload pid a st = .ok (st', mv) →
      mv.map Movement.amount =
        [a.vaa.payload.amount - a.vaa.payload.fee, a.vaa.payload.fee] ∧
      (a.vaa.payload.amount - a.vaa.payload.fee) + a.vaa.payload.fee =
        a.vaa.payload.amount) := by
  constructor
  · intro pid a st st' mv h
    obtain ⟨-, -, -, -, -, aL, fL, hu, hv, hle, hmv⟩ := native_ok_elim h
    exact ⟨aL, fL, hu, hv, by simp [hmv], Nat.sub_add_cancel hle⟩
  · intro pid a st st' mv h
    obtain ⟨-, -, -, -, -, hle, hmv⟩ := wrapped_ok_elim h
    exact ⟨by simp [hmv], Nat.sub_add_cancel hle⟩

/-- C2 witness: the conservation theorem applied to the concrete valid native
and wrapped runs. -/
theorem c2_amount_conservation_witness :
    (∃ aL fL,
      untruncate exampleNative.mint_decimals exampleNative.vaa.payload.amount = .ok aL ∧
      untruncate exampleNative.mint_decimals exampleNative.vaa.payload.fee = .ok fL ∧
      [(1000000000 : Nat), 0].map id = [aL - fL, fL] ∧ (aL - fL) + fL = aL) ∧
    ((900 : Nat) + 100 = 1000) := by
  constructor
  · obtain ⟨aL, fL, hu, hv, hmv, hc⟩ :=
      c2_amount_conservation.1 7 exampleNative [] [(2, 3, 4)]
        [⟨.transfer, deriveCustody 7 5, 10, 13, 1000000000⟩,
         ⟨.transfer, deriveCustody 7 5, 11, 13, 0⟩] (by rfl)
    exact ⟨aL, fL, hu, hv, by simpa using hmv, hc⟩
  · have h :=
      c2_amount_conservation.2 7 exampleWrapped [] [(2, 3, 9)]
        [⟨.mintTo, 40, 10, 33, 900⟩, ⟨.mintTo, 40, 11, 33, 100⟩] (by rfl)
    exact h.2

/-- C3 counterexample: with local decimals 6, canonical amount 1_000_000_000
and fee 0, the native handler does NOT floor-divide by 10^(8-6): the recipient
receives 1_000_000_000 local units, not the 10_000_000 the claim predicts. -/
theorem c3_counterexample :
    complete_native_with_payload 7 exampleNative [] =
      .ok ([(2, 3, 4)],
        [⟨.transfer, deriveCustody 7 5, 10, 13, 1000000000⟩,
         ⟨.transfer, deriveCustody 7 5, 11, 13, 0⟩]) ∧
    exampleNative.mint_decimals = 6 ∧
    exampleNative.vaa.payload.amount = 1000000000 ∧
    exampleNative.vaa.payload.fee = 0 ∧
    (1000000000 : Nat) ≠ 10000000 := by
  exact ⟨by rfl, rfl, rfl, rfl, by decide⟩

/-- C3 (amended): when the local mint's decimals are 8 or fewer (including
strictly fewer), normalization is the identity — no floor division is applied;
the recipient receives `amount - fee` and the fee collector `fee`, in the raw
canonical units of the message.  Concretely, for amount = 1_000_000_000,
fee = 0 and decimals = 6, the recipient receives 1_000_000_000 local units. -/
theorem c3_identity_normalization_below_8 :
    ∀ pid (a : CompleteNativeWithPayload) st st' mv,
      a.mint_decimals ≤ 8 →
      complete_native_with_payload pid a st = .ok (st', mv) →
      mv.map Movement.amount =
        [a.vaa.payload.amount - a.vaa.payload.fee, a.vaa.payload.fee] := by
  intro pid a st st' mv hd h
  obtain ⟨-, -, -, -, -, aL, fL, hu, hv, -, hmv⟩ := native_ok_elim h
  rw [untruncate_of_le hd] at hu hv
  cases hu
  cases hv
  simp [hmv]

/-- C3 witness: the amended theorem at the concrete input — decimals 6,
amount 1_000_000_000, fee 0 — gives the recipient exactly 1_000_000_000. -/
theorem c3_identity_normalization_below_8_witness :
    exampleNative.mint_decimals ≤ 8 ∧
    ([⟨.transfer, deriveCustody 7 5, 10, 13, 1000000000⟩,
      ⟨.transfer, deriveCustody 7 5, 11, 13, (0 : Nat)⟩] : List Movement).map
        Movement.amount =
      [exampleNative.vaa.payload.amount - exampleNative.vaa.payload.fee,
       exampleNative.vaa.payload.fee] :=
  ⟨by decide,
   c3_identity_normalization_below_8 7 exampleNative [] [(2, 3, 4)] _ (by decide) (by rfl)⟩

/-- C10: in the wrapped-mint path, the minted quantities come straight from
the message in canonical units — `amount - fee` to the recipient and `fee` to
the fee collector — and the result is entirely independent of the wrapped
mint's decimals field. -/
theorem c10_wrapped_mints_canonical_units :
    (∀ pid (a : CompleteWrappedWithPayload) st st' mv,
      complete_wrapped_with_payload pid a st = .ok (st', mv) →
      mv = [⟨.mintTo, a.mint_key, a.to_key, a.mint_authority_key,
               a.vaa.payload.amount - a.vaa.payload.fee⟩,
            ⟨.mintTo, a.mint_key, a.to_fees_key, a.mint_authority_key,
               a.vaa.payload.fee⟩]) ∧
    (∀ pid (a : CompleteWrappedWithPayload) st d',
      complete_wrapped_with_payload pid { a with mint_decimals := d' } st =
        complete_wrapped_with_payload pid a st) := by
  constructor
  · intro pid a st st' mv h
    exact (wrapped_ok_elim h).2.2.2.2.2.2
  · intro pid a st d'
    rfl

/-- C10 witness: the concrete wrapped run mints 900 = 1000 - 100 to the
recipient and 100 to the fee collector, untouched by the mint's 9 decimals. -/
theorem c10_wrapped_mints_canonical_units_witness :
    ([⟨.mintTo, 40, 10, 33, 900⟩, ⟨.mintTo, 40, 11, 33, (100 : Nat)⟩] : List Movement) =
      [⟨.mintTo, exampleWrapped.mint_key, exampleWrapped.to_key,
          exampleWrapped.mint_authority_key,
          exampleWrapped.vaa.payload.amount - exampleWrapped.vaa.payload.fee⟩,
       ⟨.mintTo, exampleWrapped.mint_key, exampleWrapped.to_fees_key,
          exampleWrapped.mint_authority_key, exampleWrapped.vaa.payload.fee⟩] :=
  c10_wrapped_mints_canonical_units.1 7 exampleWrapped [] [(2, 3, 9)] _ (by rfl)

/-- C6: the handlers are all-or-nothing.  A failing run — whatever check
failed — commits no claim record and emits no token movement (under the
atomic-transaction semantics `runComplete`), and a successful run's only state
change is the single new claim record for the consumed message identity. -/
theorem c6_first_failure_aborts_cleanly :
    (∀ pid (a : CompleteNativeWithPayload) st e,
      complete_native_with_payload pid a st = .error e →
      runComplete st (complete_native_with_payload pid a st) = (st, [])) ∧
    (∀ pid (a : CompleteWrappedWithPayload) st e,
      complete_wrapped_with_payload pid a st = .error e →
      runComplete st (complete_wrapped_with_payload pid a st) = (st, [])) ∧
    (∀ pid (a : CompleteNativeWithPayload) st st' mv,
      complete_native_with_payload pid a st = .ok (st', mv) →
      st' = claimIdOf a.vaa.meta :: st) ∧
    (∀ pid (a : CompleteWrappedWithPayload) st st' mv,
      complete_wrapped_with_payload pid a st = .ok (st', mv) →
      st' = claimIdOf a.vaa.meta :: st) := by
  refine ⟨?_, ?_, ?_, ?_⟩
  · intro pid a st e h; rw [h]; rfl
  · intro pid a st e h; rw [h]; rfl
  · intro pid a st st' mv h; exact (native_ok_elim h).2.2.1
  · intro pid a st st' mv h; exact (wrapped_ok_elim h).2.2.1

/-- C6 witness: a concrete failing native run (wrong destination chain)
commits nothing, and the concrete successful native run's state change is
exactly the one claim record. -/
theorem c6_first_failure_aborts_cleanly_witness :
    runComplete [] (complete_native_with_payload 7 exampleNativeWrongChain []) = ([], []) ∧
    ([(2, 3, 4)] : ClaimState) = claimIdOf exampleNative.vaa.meta :: [] :=
  ⟨c6_first_failure_aborts_cleanly.1 7 exampleNativeWrongChain [] .InvalidChain (by rfl),
   c6_first_failure_aborts_cleanly.2.2.1 7 exampleNative [] [(2, 3, 4)]
     [⟨.transfer, deriveCustody 7 5, 10, 13, 1000000000⟩,
      ⟨.transfer, deriveCustody 7 5, 11, 13, 0⟩] (by rfl)⟩

set_option maxHeartbeats 2000000 in
/-- C7: in both paths, a message whose `to_chain` is not the local chain id
(`CHAIN_ID_SOLANA`) is rejected with the wrong-destination-chain error
(`InvalidChain`) and produces no side effects, even when every check that
precedes it passes. -/
theorem c7_wrong_destination_chain_rejected :
    (∀ pid (a : CompleteNativeWithPayload) st,
      a.chain_registration_key =
        deriveEndpoint pid a.vaa.meta.emitter_chain a.vaa.meta.emitter_address →
      a.custody_key = deriveCustody pid a.mint_key →
      a.mint_key = a.to_data.mint →
      a.mint_key = a.to_fees_data.mint →
      a.mint_key = a.custody_data.mint →
      a.custody_signer_key = a.custody_data.owner →
      a.vaa.payload.token_address = a.mint_key →
      a.vaa.payload.token_chain = 1 →
      a.vaa.payload.to_chain ≠ CHAIN_ID_SOLANA →
      complete_native_with_payload pid a st = .error .InvalidChain ∧
      runComplete st (complete_native_with_payload pid a st) = (st, [])) ∧
    (∀ pid (a : CompleteWrappedWithPayload) st,
      a.chain_registration_key =
        deriveEndpoint pid a.vaa.meta.emitter_chain a.vaa.meta.emitter_address →
      a.wrapped_meta_key = deriveWrappedMeta pid a.mint_key →
      a.wrapped_meta_token_address = a.vaa.payload.token_address →
      a.wrapped_meta_chain = a.vaa.payload.token_chain →
      a.mint_key = a.to_data.mint →
      a.mint_key = a.to_fees_data.mint →
      a.vaa.payload.to_chain ≠ CHAIN_ID_SOLANA →
      complete_wrapped_with_payload pid a st = .error .InvalidChain ∧
      runComplete st (complete_wrapped_with_payload pid a st) = (st, [])) := by
  constructor
  · intro pid a st h1 h2 h3 h4 h5 h6 h7 h8 hx
    have hpre : nativePre pid a = some .InvalidChain := by
      unfold nativePre
      rw [if_neg (not_not_intro h1), if_neg (not_not_intro h2), if_neg (not_not_intro h3),
        if_neg (not_not_intro h4), if_neg (not_not_intro h5), if_neg (not_not_intro h6),
        if_neg (not_not_intro h7), if_neg (not_not_intro h8), if_pos hx]
    have he := native_error_of_pre st hpre
    exact ⟨he, by rw [he]; rfl⟩
  · intro pid a st h1 h2 h3 h4 h5 h6 hx
    have hpre : wrappedPre pid a = some .InvalidChain := by
      unfold wrappedPre
      rw [if_neg (not_not_intro h1), if_neg (not_not_intro h2),
        if_neg (by rw [not_or, not_not, not_not]; exact ⟨h3, h4⟩),
        if_neg (not_not_intro h5), if_neg (not_not_intro h6), if_pos hx]
    have he := wrapped_error_of_pre st hpre
    exact ⟨he, by rw [he]; rfl⟩

/-- C7 witness: the concrete otherwise-valid native and wrapped account sets
with `to_chain = 99` are both rejected with `InvalidChain` and commit
nothing. -/
theorem c7_wrong_destination_chain_rejected_witness :
    (complete_native_with_payload 7 exampleNativeWrongChain [] = .error .InvalidChain ∧
     runComplete [] (complete_native_with_payload 7 exampleNativeWrongChain []) = ([], [])) ∧
    (complete_wrapped_with_payload 7 exampleWrappedWrongChain [] = .error .InvalidChain ∧
     runComplete [] (complete_wrapped_with_payload 7 exampleWrappedWrongChain []) = ([], [])) :=
  ⟨c7_wrong_destination_chain_rejected.1 7 exampleNativeWrongChain [] rfl rfl rfl rfl rfl
     rfl rfl rfl (by decide),
   c7_wrong_destination_chain_rejected.2 7 exampleWrappedWrongChain [] rfl rfl rfl rfl rfl
     rfl (by decide)⟩

set_option maxHeartbeats 2000000 in
/-- C8: in both paths, when every earlier check passes, a message whose `to`
field differs from the presented recipient's address is rejected with the
recipient-mismatch error (`InvalidRecipient`), and a destination token account
whose owner differs from the presented recipient is likewise rejected with
`InvalidRecipient`; neither failing run emits any token movement. -/
theorem c8_recipient_and_owner_checks :
    (∀ pid (a : CompleteNativeWithPayload) st,
      a.chain_registration_key =
        deriveEndpoint pid a.vaa.meta.emitter_chain a.vaa.meta.emitter_address →
      a.custody_key = deriveCustody pid a.mint_key →
      a.mint_key = a.to_data.mint →
      a.mint_key = a.to_fees_data.mint →
      a.mint_key = a.custody_data.mint →
      a.custody_signer_key = a.custody_data.owner →
      a.vaa.payload.token_address = a.mint_key →
      a.vaa.payload.token_chain = 1 →
      a.vaa.payload.to_chain = CHAIN_ID_SOLANA →
      (a.vaa.payload.«to» ≠ a.to_owner_key →
        complete_native_with_payload pid a st = .error .InvalidRecipient ∧
        runComplete st (complete_native_with_payload pid a st) = (st, [])) ∧
      (a.vaa.payload.«to» = a.to_owner_key → a.to_owner_key ≠ a.to_data.owner →
        complete_native_with_payload pid a st = .error .InvalidRecipient ∧
        runComplete st (complete_native_with_payload pid a st) = (st, []))) ∧
    (∀ pid (a : CompleteWrappedWithPayload) st,
      a.chain_registration_key =
        deriveEndpoint pid a.vaa.meta.emitter_chain a.vaa.meta.emitter_address →
      a.wrapped_meta_key = deriveWrappedMeta pid a.mint_key →
      a.wrapped_meta_token_address = a.vaa.payload.token_address →
      a.wrapped_meta_chain = a.vaa.payload.token_chain →
      a.mint_key = a.to_data.mint →
      a.mint_key = a.to_fees_data.mint →
      a.vaa.payload.to_chain = CHAIN_ID_SOLANA →
      (a.vaa.payload.«to» ≠ a.to_owner_key →
        complete_wrapped_with_payload pid a st = .error .InvalidRecipient ∧
        runComplete st (complete_wrapped_with_payload pid a st) = (st, [])) ∧
      (a.vaa.payload.«to» = a.to_owner_key → a.to_owner_key ≠ a.to_data.owner →
        complete_wrapped_with_payload pid a st = .error .InvalidRecipient ∧
        runComplete st (complete_wrapped_with_payload pid a st) = (st, []))) := by
  constructor
  · intro pid a st h1 h2 h3 h4 h5 h6 h7 h8 h9
    constructor
    · intro hto
      have hpre : nativePre pid a = some .InvalidRecipient := by
        unfold nativePre
        rw [if_neg (not_not_intro h1), if_neg (not_not_intro h2), if_neg (not_not_intro h3),
          if_neg (not_not_intro h4), if_neg (not_not_intro h5), if_neg (not_not_intro h6),
          if_neg (not_not_intro h7), if_neg (not_not_intro h8), if_neg (not_not_intro h9),
          if_pos hto]
      have he := native_error_of_pre st hpre
      exact ⟨he, by rw [he]; rfl⟩
    · intro hto how
      have hpre : nativePre pid a = some .InvalidRecipient := by
        unfold nativePre
        rw [if_neg (not_not_intro h1), if_neg (not_not_intro h2), if_neg (not_not_intro h3),
          if_neg (not_not_intro h4), if_neg (not_not_intro h5), if_neg (not_not_intro h6),
          if_neg (not_not_intro h7), if_neg (not_not_intro h8), if_neg (not_not_intro h9),
          if_neg (not_not_intro hto), if_pos how]
      have he := native_error_of_pre st hpre
      exact ⟨he, by rw [he]; rfl⟩
  · intro pid a st h1 h2 h3 h4 h5 h6 h7
    constructor
    · intro hto
      have hpre : wrappedPre pid a = some .InvalidRecipient := by
        unfold wrappedPre
        rw [if_neg (not_not_intro h1), if_neg (not_not_intro h2),
          if_neg (by rw [not_or, not_not, not_not]; exact ⟨h3, h4⟩),
          if_neg (not_not_intro h5), if_neg (not_not_intro h6), if_neg (not_not_intro h7),
          if_pos hto]
      have he := wrapped_error_of_pre st hpre
      exact ⟨he, by rw [he]; rfl⟩
    · intro hto how
      have hpre : wrappedPre pid a = some .InvalidRecipient := by
        unfold wrappedPre
        rw [if_neg (not_not_intro h1), if_neg (not_not_intro h2),
          if_neg (by rw [not_or, not_not, not_not]; exact ⟨h3, h4⟩),
          if_neg (not_not_intro h5), if_neg (not_not_intro h6), if_neg (not_not_intro h7),
          if_neg (not_not_intro hto), if_pos how]
      have he := wrapped_error_of_pre st hpre
      exact ⟨he, by rw [he]; rfl⟩

/-- C8 witness: concretely, the native run whose message names recipient 77
while the presented recipient is 6 fails with `InvalidRecipient`; so does the
native run whose token account is owned by 78 instead of the recipient 6, and
the wrapped run naming recipient 77; none of them commits anything. -/
theorem c8_recipient_and_owner_checks_witness :
    (complete_native_with_payload 7 exampleNativeWrongRecipient [] =
        .error .InvalidRecipient ∧
      runComplete [] (complete_native_with_payload 7 exampleNativeWrongRecipient []) =
        ([], [])) ∧
    (complete_native_with_payload 7 exampleNativeWrongOwner [] =
        .error .InvalidRecipient ∧
      runComplete [] (complete_native_with_payload 7 exampleNativeWrongOwner []) =
        ([], [])) ∧
    (complete_wrapped_with_payload 7 exampleWrappedWrongRecipient [] =
        .error .InvalidRecipient ∧
      runComplete [] (complete_wrapped_with_payload 7 exampleWrappedWrongRecipient []) =
        ([], [])) :=
  ⟨(c8_recipient_and_owner_checks.1 7 exampleNativeWrongRecipient [] rfl rfl rfl rfl rfl
      rfl rfl rfl rfl).1 (by decide),
   (c8_recipient_and_owner_checks.1 7 exampleNativeWrongOwner [] rfl rfl rfl rfl rfl
      rfl rfl rfl rfl).2 rfl (by decide),
   (c8_recipient_and_owner_checks.2 7 exampleWrappedWrongRecipient [] rfl rfl rfl rfl rfl
      rfl rfl).1 (by decide)⟩

/-- C9: the native-release path succeeds only if the message's `token_chain`
is the local chain id, its `token_address` is the presented mint's address,
and the destination, fee, and custody token accounts all reference that mint;
when any of these fails, the run ends in an error with no token movement and
no state change. -/
theorem c9_native_asset_identity :
    (∀ pid (a : CompleteNativeWithPayload) st st' mv,
      complete_native_with_payload pid a st = .ok (st', mv) →
      a.vaa.payload.token_chain = CHAIN_ID_SOLANA ∧
      a.vaa.payload.token_address = a.mint_key ∧
      a.mint_key = a.to_data.mint ∧
      a.mint_key = a.to_fees_data.mint ∧
      a.mint_key = a.custody_data.mint) ∧
    (∀ pid (a : CompleteNativeWithPayload) st,
      ¬(a.vaa.payload.token_chain = CHAIN_ID_SOLANA ∧
        a.vaa.payload.token_address = a.mint_key ∧
        a.mint_key = a.to_data.mint ∧
        a.mint_key = a.to_fees_data.mint ∧
        a.mint_key = a.custody_data.mint) →
      ∃ e, complete_native_with_payload pid a st = .error e ∧
        runComplete st (complete_native_with_payload pid a st) = (st, [])) := by
  constructor
  · intro pid a st st' mv h
    have hp := (native_ok_elim h).1
    rw [nativePre_none_iff] at hp
    obtain ⟨-, -, h3, h4, h5, -, h7, h8, -, -, -⟩ := hp
    exact ⟨h8, h7, h3, h4, h5⟩
  · intro pid a st hbad
    cases hr : complete_native_with_payload pid a st with
    | ok r =>
      exfalso
      obtain ⟨st', mv⟩ := r
      have hp := (native_ok_elim hr).1
      rw [nativePre_none_iff] at hp
      obtain ⟨-, -, h3, h4, h5, -, h7, h8, -, -, -⟩ := hp
      exact hbad ⟨h8, h7, h3, h4, h5⟩
    | error e =>
      exact ⟨e, rfl, rfl⟩

/-- C9 witness: the concrete valid native run satisfies every asset-identity
equality, and the concrete run whose message claims origin chain 2 ends in an
error with nothing committed. -/
theorem c9_native_asset_identity_witness :
    (exampleNative.vaa.payload.token_chain = CHAIN_ID_SOLANA ∧
     exampleNative.vaa.payload.token_address = exampleNative.mint_key ∧
     exampleNative.mint_key = exampleNative.to_data.mint ∧
     exampleNative.mint_key = exampleNative.to_fees_data.mint ∧
     exampleNative.mint_key = exampleNative.custody_data.mint) ∧
    (∃ e, complete_native_with_payload 7 exampleNativeWrongTokenChain [] = .error e ∧
      runComplete [] (complete_native_with_payload 7 exampleNativeWrongTokenChain []) =
        ([], [])) :=
  ⟨c9_native_asset_identity.1 7 exampleNative [] [(2, 3, 4)]
     [⟨.transfer, deriveCustody 7 5, 10, 13, 1000000000⟩,
      ⟨.transfer, deriveCustody 7 5, 11, 13, 0⟩] (by rfl),
   c9_native_asset_identity.2 7 exampleNativeWrongTokenChain [] (by decide)⟩

end Wormhole
